import Mathlib

/-!
Verification of the scheduling and lifecycle-coordination engine of the
`aplt` load-generation harness (`aplt/runner.py`).

The Python code is shallowly embedded: the mutable attributes of
`RunnerHarness` and `LoadRunner` become fields of Lean structures, each
method becomes a pure state-transforming function, and external side
effects (opening a websocket via `connectWS`, closing a surplus client via
`sendClose`) are recorded in the state as event counters/logs so that frame
conditions can be stated.  Driver instances (`CommandProcessor` objects)
and websocket connections are identified by natural-number ids.
-/

namespace Aplt

/-- State of a `RunnerHarness` (`aplt/runner.py`, class `RunnerHarness`).

* `processors` — the `_processors` counter (a Python int, may in principle
  go negative, hence `Int`);
* `ws_clients` — the `_ws_clients` dict as an insertion-ordered
  association list from connection id to processor id;
* `connect_waiters` — the `_connect_waiters` deque of processor ids,
  head = oldest;
* `connect_attempts` — how many times `connectWS(...)` has been called
  (an external side effect, recorded so frame conditions are statable);
* `closed_clients` — connections on which `sendClose()` was called. -/
structure Harness where
  processors : Int
  ws_clients : List (Nat × Nat)
  connect_waiters : List Nat
  connect_attempts : Nat
  closed_clients : List Nat
deriving Repr, DecidableEq

/-- `RunnerHarness.__init__`: `_processors = 0`, `_ws_clients = {}`,
`_connect_waiters = deque()`; no connection opened or closed yet. -/
def initHarness : Harness :=
  { processors := 0, ws_clients := [], connect_waiters := [],
    connect_attempts := 0, closed_clients := [] }

/-- Python `k in d` for the `_ws_clients` dict. -/
def dictHasKey (k : Nat) (d : List (Nat × Nat)) : Bool :=
  d.any (fun kv => kv.1 == k)

/-- Python `d[k] = v`: overwrite the entry if the key is present, else
append a fresh entry (dicts keep insertion order). -/
def dictInsert (k v : Nat) (d : List (Nat × Nat)) : List (Nat × Nat) :=
  if dictHasKey k d then
    d.map (fun kv => if kv.1 == k then (k, v) else kv)
  else d ++ [(k, v)]

/-- Python `d.pop(k, None)`: the popped value (or `none`) together with
the remaining dict. -/
def dictPop (k : Nat) (d : List (Nat × Nat)) : Option Nat × List (Nat × Nat) :=
  match d.find? (fun kv => kv.1 == k) with
  | some kv => (some kv.2, d.filter (fun kv => !(kv.1 == k)))
  | none => (none, d)

/-- `RunnerHarness.run`: create a processor, start it, and increment
`_processors` by one.  (The created `CommandProcessor` itself is external
to this module.) -/
def Harness.run (h : Harness) : Harness :=
  { h with processors := h.processors + 1 }

/-- `RunnerHarness.connect`: call `connectWS(...)` once and append the
processor to the `_connect_waiters` deque. -/
def Harness.connect (h : Harness) (processor : Nat) : Harness :=
  { h with connect_attempts := h.connect_attempts + 1,
           connect_waiters := h.connect_waiters ++ [processor] }

/-- `RunnerHarness.add_client`: `popleft` a waiting processor; on
`IndexError` (empty deque) log and `sendClose()` the surplus connection,
returning nothing; otherwise record the pair in `_ws_clients` and return
the processor. -/
def Harness.add_client (h : Harness) (ws_client : Nat) : Option Nat × Harness :=
  match h.connect_waiters with
  | [] =>
      (none, { h with closed_clients := h.closed_clients ++ [ws_client] })
  | processor :: rest =>
      (some processor,
       { h with connect_waiters := rest,
                ws_clients := dictInsert ws_client processor h.ws_clients })

/-- `RunnerHarness.remove_client`: `pop(ws_client, None)` from
`_ws_clients`; if nothing was found and `len(self._connect_waiters)` is
nonzero, call `connectWS(...)` once more. -/
def Harness.remove_client (h : Harness) (ws_client : Nat) : Harness :=
  match dictPop ws_client h.ws_clients with
  | (some _, d) => { h with ws_clients := d }
  | (none, _) =>
      if h.connect_waiters.length ≠ 0 then
        { h with connect_attempts := h.connect_attempts + 1 }
      else h

/-- `RunnerHarness.remove_processor`: decrement `_processors` by one. -/
def Harness.remove_processor (h : Harness) : Harness :=
  { h with processors := h.processors - 1 }

/-- If `dictPop` finds nothing, the dict is returned unchanged. -/
theorem dictPop_none_eq (k : Nat) (d : List (Nat × Nat))
    (h : (dictPop k d).1 = none) : dictPop k d = (none, d) := by
  unfold dictPop at *
  cases hf : d.find? (fun kv => kv.1 == k) with
  | none => simp [hf]
  | some kv => simp [hf] at h

/-- Eta form of a successful `dictPop`. -/
theorem dictPop_some_eq (k : Nat) (d : List (Nat × Nat)) (p : Nat)
    (h : (dictPop k d).1 = some p) :
    dictPop k d = (some p, (dictPop k d).2) := by
  rw [← h]

/-- C8: when `add_client` is called with an empty waiter queue the surplus
connection is closed immediately (`sendClose`), no processor is returned,
and the registry, the live-instance counter, the waiter queue and the
connection-attempt count are unchanged. -/
theorem add_client_surplus_closes (h : Harness) (c : Nat)
    (hq : h.connect_waiters = []) :
    h.add_client c = (none, { h with closed_clients := h.closed_clients ++ [c] }) := by
  unfold Harness.add_client
  rw [hq]

/-- Witness for `add_client_surplus_closes` at a concrete harness. -/
theorem add_client_surplus_closes_witness :
    initHarness.add_client 5 =
      (none, { processors := 0, ws_clients := [], connect_waiters := [],
               connect_attempts := 0, closed_clients := [5] }) :=
  add_client_surplus_closes initHarness 5 rfl

/-- C9: `remove_client` removes the `(connection, instance)` pair from the
registry when present (and does nothing else); when the connection has no
registry entry it issues exactly one replacement connection attempt if the
waiter queue is non-empty, and is a complete no-op if the waiter queue is
empty. -/
theorem remove_client_cases (h : Harness) (c : Nat) :
    ((dictPop c h.ws_clients).1 = none → h.connect_waiters = [] →
        h.remove_client c = h) ∧
    ((dictPop c h.ws_clients).1 = none → h.connect_waiters ≠ [] →
        h.remove_client c =
          { h with connect_attempts := h.connect_attempts + 1 }) ∧
    (∀ p, (dictPop c h.ws_clients).1 = some p →
        h.remove_client c = { h with ws_clients := (dictPop c h.ws_clients).2 }) := by
  refine ⟨?_, ?_, ?_⟩
  · intro hn hw
    unfold Harness.remove_client
    rw [dictPop_none_eq c h.ws_clients hn]
    simp [hw]
  · intro hn hw
    unfold Harness.remove_client
    rw [dictPop_none_eq c h.ws_clients hn]
    simp [List.length_eq_zero, hw]
  · intro p hp
    unfold Harness.remove_client
    rw [dictPop_some_eq c h.ws_clients p hp]

/-- Witness for `remove_client_cases`: on a harness with empty registry
and empty waiter queue, `remove_client` is a no-op. -/
theorem remove_client_cases_witness :
    initHarness.remove_client 7 = initHarness :=
  (remove_client_cases initHarness 7).1 rfl rfl

/-- C10: `connect` appends exactly one entry (the given instance) at the
tail of the waiter queue and issues exactly one factory connection
attempt; the registry, the live-instance counter and the closed-client log
are unchanged. -/
theorem connect_frame (h : Harness) (p : Nat) :
    (h.connect p).connect_waiters = h.connect_waiters ++ [p] ∧
    (h.connect p).connect_attempts = h.connect_attempts + 1 ∧
    (h.connect p).ws_clients = h.ws_clients ∧
    (h.connect p).processors = h.processors ∧
    (h.connect p).closed_clients = h.closed_clients := by
  refine ⟨rfl, rfl, rfl, rfl, rfl⟩

/-! ### Event traces over a single harness -/

/-- The externally triggered events a `RunnerHarness` reacts to:
`run()` / `remove_processor()` (driver lifecycle), `connect(processor)`
(a driver requesting a connection), and the `add_client` / `remove_client`
callbacks from the connection factory. -/
inductive HEvent where
  | run : HEvent
  | removeProcessor : HEvent
  | connect (processor : Nat) : HEvent
  | addClient (ws_client : Nat) : HEvent
  | removeClient (ws_client : Nat) : HEvent
deriving Repr, DecidableEq

/-- Apply one event to the harness state. -/
def stepH (h : Harness) : HEvent → Harness
  | HEvent.run => h.run
  | HEvent.removeProcessor => h.remove_processor
  | HEvent.connect p => h.connect p
  | HEvent.addClient c => (h.add_client c).2
  | HEvent.removeClient c => h.remove_client c

/-- Execute a sequence of events, collecting the processor returned by
each `add_client` call (in order). -/
def runHOut : List HEvent → Harness → Harness × List (Option Nat)
  | [], h => (h, [])
  | HEvent.addClient c :: evs, h =>
      let r := h.add_client c
      let rest := runHOut evs r.2
      (rest.1, r.1 :: rest.2)
  | e :: evs, h => runHOut evs (stepH h e)

theorem runHOut_append (l1 l2 : List HEvent) (h : Harness) :
    runHOut (l1 ++ l2) h =
      ((runHOut l2 (runHOut l1 h).1).1,
       (runHOut l1 h).2 ++ (runHOut l2 (runHOut l1 h).1).2) := by
  induction l1 generalizing h with
  | nil => simp [runHOut]
  | cons e evs ih =>
    cases e <;> simp [runHOut, ih]

/-- A run of `connect` events appends the processors to the waiter queue
in call order and issues one connection attempt each. -/
theorem runHOut_connects (ps : List Nat) (h : Harness) :
    runHOut (ps.map HEvent.connect) h =
      ({ h with connect_waiters := h.connect_waiters ++ ps,
                connect_attempts := h.connect_attempts + ps.length }, []) := by
  induction ps generalizing h with
  | nil => simp [runHOut]
  | cons p ps ih =>
    simp [runHOut, stepH, Harness.connect, ih, List.append_assoc]
    omega

theorem dictInsert_fresh (k v : Nat) (d : List (Nat × Nat))
    (hk : dictHasKey k d = false) : dictInsert k v d = d ++ [(k, v)] := by
  unfold dictInsert
  rw [hk]
  simp

theorem dictHasKey_append (k : Nat) (d1 d2 : List (Nat × Nat)) :
    dictHasKey k (d1 ++ d2) = (dictHasKey k d1 || dictHasKey k d2) := by
  simp [dictHasKey]

/-- A run of `add_client` events with distinct fresh connections pops the
waiter queue from the front, registering the connections with the waiting
processors in FIFO order and returning those processors in order. -/
theorem runHOut_addClients (cs : List Nat) (h : Harness)
    (hle : cs.length ≤ h.connect_waiters.length) (hnd : cs.Nodup)
    (hfresh : ∀ c ∈ cs, dictHasKey c h.ws_clients = false) :
    runHOut (cs.map HEvent.addClient) h =
      ({ h with connect_waiters := h.connect_waiters.drop cs.length,
                ws_clients := h.ws_clients ++ cs.zip h.connect_waiters },
       (h.connect_waiters.take cs.length).map some) := by
  induction cs generalizing h with
  | nil => simp [runHOut]
  | cons c cs ih =>
    cases hw : h.connect_waiters with
    | nil =>
      rw [hw] at hle
      simp at hle
    | cons w ws =>
      have hfc : dictHasKey c h.ws_clients = false := hfresh c (by simp)
      have hstep : h.add_client c =
          (some w, { h with connect_waiters := ws,
                            ws_clients := h.ws_clients ++ [(c, w)] }) := by
        unfold Harness.add_client
        rw [hw]
        dsimp only
        rw [dictInsert_fresh c w h.ws_clients hfc]
      have hle2 : cs.length ≤ ws.length := by
        rw [hw] at hle
        simpa using hle
      have hcn : c ∉ cs := (List.nodup_cons.mp hnd).1
      have hnd2 : cs.Nodup := (List.nodup_cons.mp hnd).2
      have hfresh2 : ∀ x ∈ cs,
          dictHasKey x (h.ws_clients ++ [(c, w)]) = false := by
        intro x hx
        rw [dictHasKey_append]
        have h1 : dictHasKey x h.ws_clients = false :=
          hfresh x (by simp [hx])
        have hxc : c ≠ x := fun he => hcn (he ▸ hx)
        have h2 : dictHasKey x [(c, w)] = false := by
          simp [dictHasKey, hxc]
        rw [h1, h2]
        rfl
      simp only [List.map_cons, runHOut, hstep]
      rw [ih _ hle2 hnd2 hfresh2]
      simp [hw, List.append_assoc]

/-- C1: for every sequence of `connect(instance)` calls followed by
connection-ready events (`add_client` calls), matching is FIFO: starting
from a fresh harness, the `i`-th `add_client` pops and returns the `i`-th
connecting instance, the registry ends up pairing the connections with the
instances in connect order, and the still-unmatched instances remain
queued in order. -/
theorem connect_addClient_fifo_order (ps cs : List Nat)
    (hle : cs.length ≤ ps.length) (hnd : cs.Nodup) :
    runHOut (ps.map HEvent.connect ++ cs.map HEvent.addClient) initHarness =
      ({ processors := 0, ws_clients := cs.zip ps,
         connect_waiters := ps.drop cs.length,
         connect_attempts := ps.length, closed_clients := [] },
       (ps.take cs.length).map some) := by
  rw [runHOut_append, runHOut_connects ps initHarness]
  rw [runHOut_addClients cs _ (by simpa [initHarness] using hle) hnd
        (by intro x hx; rfl)]
  simp [initHarness]

/-- Witness for `connect_addClient_fifo_order`: three instances connect,
two connections arrive; the first two instances are matched in order and
the third stays queued. -/
theorem connect_addClient_fifo_order_witness :
    runHOut ([1, 2, 3].map HEvent.connect ++ [10, 11].map HEvent.addClient)
        initHarness =
      ({ processors := 0, ws_clients := [(10, 1), (11, 2)],
         connect_waiters := [3], connect_attempts := 3, closed_clients := [] },
       [some 1, some 2]) := by
  rw [connect_addClient_fifo_order [1, 2, 3] [10, 11] (by decide) (by decide)]
  rfl

/-! ### The live-instance counter -/

/-- Number of `run()` calls in a trace. -/
def countRun (evs : List HEvent) : Nat :=
  evs.countP (fun e => match e with | HEvent.run => true | _ => false)

/-- Number of `remove_processor()` calls in a trace. -/
def countRemoveProcessor (evs : List HEvent) : Nat :=
  evs.countP (fun e => match e with | HEvent.removeProcessor => true | _ => false)

theorem add_client_processors (h : Harness) (c : Nat) :
    ((h.add_client c).2).processors = h.processors := by
  unfold Harness.add_client
  cases h.connect_waiters <;> rfl

theorem connect_processors (h : Harness) (p : Nat) :
    (h.connect p).processors = h.processors := rfl

theorem remove_client_processors (h : Harness) (c : Nat) :
    (h.remove_client c).processors = h.processors := by
  unfold Harness.remove_client
  rcases hp : dictPop c h.ws_clients with ⟨o, d⟩
  cases o
  · dsimp only
    split <;> rfl
  · rfl

/-- `_processors` after a trace is the initial value plus the number of
`run()` calls minus the number of `remove_processor()` calls. -/
theorem runHOut_processors (evs : List HEvent) (h : Harness) :
    ((runHOut evs h).1).processors =
      h.processors + countRun evs - countRemoveProcessor evs := by
  induction evs generalizing h with
  | nil => simp [runHOut, countRun, countRemoveProcessor]
  | cons e evs ih =>
    cases e <;>
      simp [runHOut, stepH, Harness.run, Harness.remove_processor,
            add_client_processors, remove_client_processors,
            connect_processors, countRun, countRemoveProcessor,
            List.countP_cons, ih] <;>
      omega

/-- C3: over any event trace from a fresh harness, `run()` called `N`
times raises `_processors` by exactly `N` and each `remove_processor()`
lowers it by exactly `1` (the counter equals runs minus removals); under
the exactly-once discipline (no prefix has more removals than runs) the
counter never goes negative. -/
theorem processors_counter_nonneg (evs : List HEvent)
    (hdisc : ∀ n ≤ evs.length,
        countRemoveProcessor (evs.take n) ≤ countRun (evs.take n)) :
    ((runHOut evs initHarness).1).processors =
        (countRun evs : Int) - countRemoveProcessor evs ∧
    ∀ n, 0 ≤ ((runHOut (evs.take n) initHarness).1).processors := by
  have h0 : initHarness.processors = 0 := rfl
  constructor
  · have h1 := runHOut_processors evs initHarness
    omega
  · intro n
    have h1 := runHOut_processors (evs.take n) initHarness
    rcases le_or_lt n evs.length with hn | hn
    · have h2 := hdisc n hn
      omega
    · have heq : evs.take n = evs := List.take_of_length_le (le_of_lt hn)
      have h2 := hdisc evs.length le_rfl
      rw [List.take_length] at h2
      rw [heq] at h1 ⊢
      omega

/-- Witness for `processors_counter_nonneg`: two launches followed by two
terminations leave the counter at `2 - 2`. -/
theorem processors_counter_nonneg_witness :
    ((runHOut [HEvent.run, HEvent.run, HEvent.removeProcessor,
               HEvent.removeProcessor] initHarness).1).processors =
      (countRun [HEvent.run, HEvent.run, HEvent.removeProcessor,
                 HEvent.removeProcessor] : Int) -
        countRemoveProcessor [HEvent.run, HEvent.run, HEvent.removeProcessor,
                              HEvent.removeProcessor] :=
  (processors_counter_nonneg _ (by decide)).1

/-! ### Notification delivery (`send_notification` and its deferred chain) -/

/-- A result handed to `processor._send_command_result`: either
`(response, fully_read_body)` on success or `(None, failure)` on error. -/
inductive Delivery where
  | success (processor response body : Nat)
  | failure (processor failureReason : Nat)
deriving Repr, DecidableEq

/-- `RunnerHarness._error_notif(self, failure, processor)` applied to a
positional-argument list, as twisted invokes callbacks: two arguments
deliver `(None, failure)` to the processor; any other arity is a
`TypeError` raised by the interpreter before the body runs. -/
def error_notif : List Nat → Except String (List Delivery)
  | [failureReason, processor] =>
      Except.ok [Delivery.failure processor failureReason]
  | _ => Except.error "TypeError"

/-- `RunnerHarness._finished_notification(self, result, response,
processor)`: delivers `(response, result)` — the response object and the
fully read body — to the processor. -/
def finished_notification : List Nat → Except String (List Delivery)
  | [result, response, processor] =>
      Except.ok [Delivery.success processor response result]
  | _ => Except.error "TypeError"

/-- `RunnerHarness._sent_notification(self, result, processor)`: awaits
`result.content()`; its success value feeds
`_finished_notification(body, result, processor)` and its failure feeds
the errback registered as `d.addErrback(self._error_notif, result,
processor)`, i.e. `_error_notif(failure, result, processor)` — three
positional arguments. -/
def sent_notification (contentResult : Except Nat Nat) :
    List Nat → Except String (List Delivery)
  | [result, processor] =>
      match contentResult with
      | Except.ok body => finished_notification [body, result, processor]
      | Except.error f => error_notif [f, result, processor]
  | _ => Except.error "TypeError"

/-- Outcome of the asynchronous `treq.post` call: either the deferred
errbacks with a transport failure, or a response arrives whose body read
(`result.content()`) itself succeeds or fails. -/
inductive PostOutcome where
  | postFailure (f : Nat)
  | responded (response : Nat) (contentResult : Except Nat Nat)

/-- `RunnerHarness.send_notification`: the post deferred's callback is
`_sent_notification(result, processor)` and its errback is
`_error_notif(failure, processor)`; the value is the list of results
delivered to the requesting processor (or the uncaught `TypeError`). -/
def send_notification (outcome : PostOutcome) (processor : Nat) :
    Except String (List Delivery) :=
  match outcome with
  | PostOutcome.postFailure f => error_notif [f, processor]
  | PostOutcome.responded resp contentResult =>
      sent_notification contentResult [resp, processor]

/-- C2: evaluation of the notification callback chain.  On a transport
failure of the POST and on full success exactly one result reaches the
requesting processor; but when the POST succeeds (response `7`) and
reading the body fails (failure `3`), the errback `_error_notif` is
invoked with three positional arguments for its two parameters, raising
`TypeError` — the processor never receives the `(None, failure)` result
the claim promises. -/
theorem send_notification_body_failure_drops_result :
    send_notification (PostOutcome.postFailure 4) 5 =
        Except.ok [Delivery.failure 5 4] ∧
    send_notification (PostOutcome.responded 7 (Except.ok 9)) 5 =
        Except.ok [Delivery.success 5 7 9] ∧
    send_notification (PostOutcome.responded 7 (Except.error 3)) 5 =
        Except.error "TypeError" :=
  ⟨rfl, rfl, rfl⟩

/-! ### LoadRunner -/

/-- State of a `LoadRunner` (`aplt/runner.py`, class `LoadRunner`):
`_harnesses`, `_started`, `_queued_calls`. -/
structure LoadRunner where
  harnesses : List Harness
  started : Bool
  queued_calls : Int
deriving Repr

/-- `LoadRunner.__init__`: no harnesses yet, `_started = False`,
`_queued_calls = 0`. -/
def initLoadRunner : LoadRunner :=
  { harnesses := [], started := false, queued_calls := 0 }

/-- `LoadRunner.finished`:
`all([started, queued_calls == 0, all(processors == 0)])`. -/
def LoadRunner.finished (lr : LoadRunner) : Bool :=
  [lr.started, lr.queued_calls == 0,
   lr.harnesses.all (fun x => x.processors == 0)].all (fun b => b)

/-- C4: `finished` is a pure boolean query, true iff the started flag is
set, the pending-scheduled-call counter is zero and every owned harness
has a zero live-instance counter; it is false on a fresh (un-started)
`LoadRunner` and false whenever a scheduled batch is still pending
(`_queued_calls ≠ 0`). -/
theorem finished_query_characterization (lr : LoadRunner) :
    (lr.finished = true ↔
      (lr.started = true ∧ lr.queued_calls = 0 ∧
       ∀ h ∈ lr.harnesses, h.processors = 0)) ∧
    initLoadRunner.finished = false ∧
    (lr.queued_calls ≠ 0 → lr.finished = false) := by
  refine ⟨?_, rfl, ?_⟩
  · simp [LoadRunner.finished, List.all_eq_true]
  · intro hq
    simp [LoadRunner.finished, hq]

/-- Witness for `finished_query_characterization`: a started runner with a
pending scheduled batch is not finished. -/
theorem finished_query_characterization_witness :
    LoadRunner.finished
      { harnesses := [], started := true, queued_calls := 3 } = false :=
  (finished_query_characterization
      { harnesses := [], started := true, queued_calls := 3 }).2.2 (by decide)

/-! ### The launch schedule built by `LoadRunner.start` -/

/-- One test-plan tuple `(scenario, quantity, stagger, overall_delay)` as
unpacked by the loop in `LoadRunner.start`. -/
structure Plan where
  scenario : Nat
  quantity : Int
  stagger : Int
  overall_delay : Int
deriving Repr, DecidableEq

/-- The observable effect of `LoadRunner.start`:

* `times` — the delays passed to `reactor.callLater`, in scheduling order
  (the argument `overall_delay + delay` is evaluated eagerly);
* `queued_calls` — `_queued_calls` when `start` returns (incremented once
  per scheduled batch, before scheduling it);
* `cell_harness`, `cell_stagger` — the values of the loop locals
  `harness` (as an index into `_harnesses`) and `stagger` when the loop
  ends.  Every `runall` closure captures these two variables by
  reference, and `reactor.callLater` callbacks fire only after `start`
  returns, so every scheduled batch reads these final values;
* `harness_count` — how many harnesses were created and appended. -/
structure Sched where
  times : List Int
  queued_calls : Int
  cell_harness : Option Nat
  cell_stagger : Option Int
  harness_count : Nat
deriving Repr, DecidableEq

/-- One iteration of the `for scenario, quantity, stagger, overall_delay
in self._testplans` loop in `LoadRunner.start`: append a fresh harness,
compute `iterations = quantity / stagger` (Python 2 floor division),
schedule one `runall` callback at `overall_delay + delay` for each
`delay in range(iterations)` — incrementing `_queued_calls` once per
batch — and rebind the loop locals `harness` and `stagger`. -/
def startStep (acc : Sched) (pl : Plan) : Sched :=
  let iterations := Int.fdiv pl.quantity pl.stagger
  { times := acc.times ++
      (List.range iterations.toNat).map (fun d => pl.overall_delay + (d : Int)),
    queued_calls := acc.queued_calls + (iterations.toNat : Int),
    cell_harness := some acc.harness_count,
    cell_stagger := some pl.stagger,
    harness_count := acc.harness_count + 1 }

/-- The loop of `LoadRunner.start`; a zero stagger raises
`ZeroDivisionError` at `quantity / stagger`. -/
def startLoop : List Plan → Sched → Except String Sched
  | [], acc => Except.ok acc
  | pl :: rest, acc =>
      if pl.stagger == 0 then Except.error "ZeroDivisionError"
      else startLoop rest (startStep acc pl)

/-- `LoadRunner.start(websocket_url)` called on a fresh `LoadRunner`. -/
def startModel (plans : List Plan) : Except String Sched :=
  startLoop plans
    { times := [], queued_calls := 0, cell_harness := none,
      cell_stagger := none, harness_count := 0 }

/-- Total number of `run()` calls harness `i` receives once every
scheduled `runall` callback has fired: each callback executes
`for _ in range(stagger): harness.run()` with the fire-time values of the
shared closure cells — the last loop iteration's harness and stagger. -/
def runsOnHarness (s : Sched) (i : Nat) : Nat :=
  match s.cell_harness, s.cell_stagger with
  | some hi, some st => if i == hi then s.times.length * st.toNat else 0
  | _, _ => 0

/-- C5: evaluation of `LoadRunner.start`.  With the single entry
`(quantity 1000, stagger 100, delay 0)`, exactly ten batches are
scheduled at offsets `0..9` and 1000 `run()` calls reach harness 0, as
the claim's example states.  But with the two-entry plan
`[(quantity 100, stagger 100, delay 0), (quantity 200, stagger 200,
delay 1)]` both `runall` closures read the loop locals
`harness`/`stagger` only after the loop has finished, so harness 0
receives 0 `run()` calls and harness 1 receives 400 — not the claimed
100 and 200 on their own harnesses. -/
theorem start_late_binding_eval :
    startModel [⟨0, 1000, 100, 0⟩] =
      Except.ok
        ⟨[0, 1, 2, 3, 4, 5, 6, 7, 8, 9], 10, some 0, some 100, 1⟩ ∧
    runsOnHarness
        ⟨[0, 1, 2, 3, 4, 5, 6, 7, 8, 9], 10, some 0, some 100, 1⟩ 0 = 1000 ∧
    startModel [⟨0, 100, 100, 0⟩, ⟨1, 200, 200, 1⟩] =
      Except.ok ⟨[0, 1], 2, some 1, some 200, 2⟩ ∧
    runsOnHarness ⟨[0, 1], 2, some 1, some 200, 2⟩ 0 = 0 ∧
    runsOnHarness ⟨[0, 1], 2, some 1, some 200, 2⟩ 1 = 400 :=
  ⟨rfl, rfl, rfl, rfl, rfl⟩

/-- C6: with quantity 150 and stagger 100 the truncating division
`iterations = quantity / stagger` yields exactly one batch of 100
`run()` calls at offset 0; the remaining 50 instances are never launched
and no error is raised. -/
theorem start_truncates_remainder :
    startModel [⟨0, 150, 100, 0⟩] =
      Except.ok ⟨[0], 1, some 0, some 100, 1⟩ ∧
    runsOnHarness ⟨[0], 1, some 0, some 100, 1⟩ 0 = 100 :=
  ⟨rfl, rfl⟩

/-- C7 counterexample: a quantity (150) not divisible by the stagger rate
(100) does not fail fast at schedule-construction time — `start`
succeeds and 100 driver instances are launched. -/
theorem nondivisible_start_no_failfast :
    Except.map (fun s => runsOnHarness s 0) (startModel [⟨0, 150, 100, 0⟩]) =
      Except.ok 100 :=
  rfl

/-! ### Test-plan parsing

Python-string operations (`split`, `strip`, `in`, `int(...)`) are
embedded over explicit character lists so that every definition
evaluates inside the kernel. -/

/-- A Python string, as the list of its characters. -/
abbrev PyStr := List Char

/-- Python `sep in s` for a one-character separator. -/
def containsChar (sep : Char) (s : PyStr) : Bool :=
  s.any (fun c => c == sep)

/-- Python `s.split(sep)` for a one-character separator: split on every
occurrence, keeping empty pieces; the result is never empty and
`"".split(sep) == [""]`. -/
def splitChar (sep : Char) : PyStr → List PyStr
  | [] => [[]]
  | c :: cs =>
      match splitChar sep cs with
      | [] => [[]]
      | g :: gs => if c == sep then [] :: g :: gs else (c :: g) :: gs

/-- Python `s.strip()` (whitespace at both ends). -/
def strip (s : PyStr) : PyStr :=
  ((s.dropWhile Char.isWhitespace).reverse.dropWhile Char.isWhitespace).reverse

/-- Value of a nonempty all-digit string; `none` otherwise. -/
def natOfDigits : PyStr → Option Nat
  | [] => none
  | s => go s 0
where
  go : PyStr → Nat → Option Nat
    | [], acc => some acc
    | c :: cs, acc =>
        if c.isDigit then go cs (acc * 10 + (c.toNat - Char.toNat '0'))
        else none

/-- Python `int(p)` on an already-stripped string: an optional sign
followed by digits; anything else raises `ValueError` (here `none`). -/
def pyInt : PyStr → Option Int
  | '-' :: rest => (natOfDigits rest).map (fun n => -(n : Int))
  | '+' :: rest => (natOfDigits rest).map (fun n => (n : Int))
  | s => (natOfDigits s).map (fun n => (n : Int))

/-- A scenario argument after `try_int_list_coerce`: an int when `int(p)`
succeeds, else the original string. -/
inductive Arg where
  | intArg (n : Int)
  | strArg (s : PyStr)
deriving Repr, DecidableEq

def try_int_list_coerce (lst : List PyStr) : List Arg :=
  lst.map (fun p =>
    match pyInt p with
    | some n => Arg.intArg n
    | none => Arg.strArg p)

/-- `locate_function`: raises `Missing function designation` on a locator
without `:`; otherwise splits on `:` and resolves
`<module>:<function>` through the importer (external, passed in as
`res`).  A split into more than two pieces is the unpack `ValueError`, a
failed import/getattr an `ImportError`. -/
def locate_function (res : PyStr → PyStr → Option Nat)
    (func_name : PyStr) : Except String Nat :=
  if containsChar ':' func_name then
    match splitChar ':' func_name with
    | [m, f] =>
        match res m f with
        | some s => Except.ok s
        | none => Except.error "ImportError"
    | _ => Except.error "ValueError"
  else Except.error "Missing function designation"

/-- A parsed test-plan tuple: the located scenario and the coerced
remaining fields. -/
structure TestplanEntry where
  scenario : Nat
  args : List Arg
deriving Repr, DecidableEq

/-- The body of the `for plan in plans` loop of `parse_testplan`:
`parts = [x.strip() for x in plan.strip().split(",")]`, pop the first
part as the locator, resolve it, coerce the rest. -/
def parse_plan (res : PyStr → PyStr → Option Nat) (plan : PyStr) :
    Except String TestplanEntry :=
  match (splitChar ',' (strip plan)).map strip with
  | [] => Except.error "IndexError"
  | func_name :: parts =>
      match locate_function res func_name with
      | Except.ok func => Except.ok ⟨func, try_int_list_coerce parts⟩
      | Except.error e => Except.error e

/-- Sequencing of a fallible loop body over a list (the loops in
`parse_testplan` and `LoadRunner.start` stop at the first raised
exception). -/
def mapExcept (f : α → Except String β) : List α → Except String (List β)
  | [] => Except.ok []
  | a :: as =>
      match f a with
      | Except.error e => Except.error e
      | Except.ok b =>
          match mapExcept f as with
          | Except.error e => Except.error e
          | Except.ok bs => Except.ok (b :: bs)

/-- `parse_testplan`: split the plan string on `|` and parse each piece. -/
def parse_testplan (res : PyStr → PyStr → Option Nat)
    (testplan : PyStr) : Except String (List TestplanEntry) :=
  mapExcept (parse_plan res) (splitChar '|' testplan)

/-- Unpacking `for scenario, quantity, stagger, overall_delay in
self._testplans` inside `LoadRunner.start`: a tuple of the wrong length
raises `ValueError`; non-integer quantity/stagger/delay raise `TypeError`
at the arithmetic. -/
def entry_to_plan (e : TestplanEntry) : Except String Plan :=
  match e.args with
  | [q, st, d] =>
      match q, st, d with
      | Arg.intArg qn, Arg.intArg stn, Arg.intArg dn =>
          Except.ok ⟨e.scenario, qn, stn, dn⟩
      | _, _, _ => Except.error "TypeError"
  | _ => Except.error "ValueError"

/-- `run_testplan` without the reactor/CLI glue: parse the test-plan
string, then build the `LoadRunner` and call `start`.  A parse failure
propagates before the `LoadRunner` is even constructed, so nothing is
scheduled and no `run()` call ever happens.  (Tuple unpacking, which
Python performs lazily inside `start`'s loop, is checked up front here.) -/
def run_testplan (res : PyStr → PyStr → Option Nat) (testplan : PyStr) :
    Except String Sched :=
  match parse_testplan res testplan with
  | Except.error e => Except.error e
  | Except.ok entries =>
      match mapExcept entry_to_plan entries with
      | Except.error e => Except.error e
      | Except.ok plans => startModel plans

theorem mapExcept_error_of_mem {α β : Type} {f : α → Except String β}
    {l : List α} {a : α} (ha : a ∈ l)
    (he : ∃ e, f a = Except.error e) :
    ∃ e, mapExcept f l = Except.error e := by
  induction l with
  | nil => cases ha
  | cons x xs ih =>
    rcases List.mem_cons.mp ha with rfl | hmem
    · rcases he with ⟨e, hfe⟩
      exact ⟨e, by simp [mapExcept, hfe]⟩
    · cases hfx : f x with
      | error e => exact ⟨e, by simp [mapExcept, hfx]⟩
      | ok b =>
        rcases ih hmem with ⟨e, hme⟩
        exact ⟨e, by simp [mapExcept, hfx, hme]⟩

theorem parse_plan_error_of_no_colon (res : PyStr → PyStr → Option Nat)
    (plan : PyStr)
    (hnc : containsChar ':'
        (((splitChar ',' (strip plan)).map strip).headD []) = false) :
    ∃ e, parse_plan res plan = Except.error e := by
  unfold parse_plan
  cases hsp : (splitChar ',' (strip plan)).map strip with
  | nil => exact ⟨"IndexError", rfl⟩
  | cons fn parts =>
    rw [hsp] at hnc
    simp only [List.headD_cons] at hnc
    have hl : locate_function res fn =
        Except.error "Missing function designation" := by
      unfold locate_function
      rw [hnc]
      rfl
    exact ⟨"Missing function designation", by simp [hl]⟩

/-- C7 (amended): an unresolvable scenario reference — here a locator
lacking the `:` separator — makes `parse_testplan` raise, and since the
test plan is parsed in full before the `LoadRunner` is constructed and
started, the failure happens at schedule-construction time, before any
driver instance is launched.  (A quantity not divisible by the stagger
rate does not fail fast; the remainder is silently dropped.) -/
theorem bad_locator_fails_before_start (res : PyStr → PyStr → Option Nat)
    (testplan : PyStr)
    (hbad : ∃ plan ∈ splitChar '|' testplan,
        containsChar ':'
          (((splitChar ',' (strip plan)).map strip).headD []) = false) :
    (∃ e, parse_testplan res testplan = Except.error e) ∧
    ∃ e, run_testplan res testplan = Except.error e := by
  rcases hbad with ⟨plan, hmem, hnc⟩
  have hp := parse_plan_error_of_no_colon res plan hnc
  have hpe : ∃ e, parse_testplan res testplan = Except.error e :=
    mapExcept_error_of_mem hmem hp
  refine ⟨hpe, ?_⟩
  rcases hpe with ⟨e, he⟩
  refine ⟨e, ?_⟩
  unfold run_testplan
  rw [he]

/-- Witness for `bad_locator_fails_before_start` at a concrete test plan
whose scenario locator has no `:`. -/
theorem bad_locator_fails_before_start_witness :
    ∃ e, run_testplan (fun _ _ => none)
      "aplt.scenarios, 100, 100, 0".toList = Except.error e :=
  (bad_locator_fails_before_start (fun _ _ => none)
      "aplt.scenarios, 100, 100, 0".toList
      ⟨"aplt.scenarios, 100, 100, 0".toList, by decide, by decide⟩).2

end Aplt
